import Mathlib

/-!
Verification development for the gauls_arena trade-lifecycle engine.

The Python sources are shallowly embedded:
* `re` patterns are transcribed into a small regular-expression AST `RE`
  executed by a backtracking matcher with Python `re.search` semantics
  (leftmost start position, first-alternative preference, greedy/lazy
  quantifiers, last-match capture groups);
* floats are idealised as rationals `ℚ`;
* SQLite rows become Lean structures, with `Option ℚ` for NULLable
  columns, and the Python truthiness tests (`if x:`) are modelled by
  `truthyQ` / `pyOr`;
* the happy path is modelled (no exchange transport failures); where the
  source catches an internal exception and rolls back, the model returns
  `none` for that operation.
-/

namespace GaulsArena

/-- Python truthiness of an optional float: `None` and `0.0` are falsy. -/
def truthyQ : Option ℚ → Bool
  | none => false
  | some x => x != 0

/-- Python `a or b` for an optional float `a`: falls back on `None` or `0.0`. -/
def pyOr (a : Option ℚ) (b : ℚ) : ℚ :=
  match a with
  | some x => if x = 0 then b else x
  | none => b

/-! ## Regular-expression engine (Python `re` semantics)

All starred subpatterns appearing in the sources quantify over single
character classes, so the AST builds `*` / `*?` / `{lo,hi}` directly over a
`CharClass`. -/

/-- The character classes used by the source regexes (ASCII reading). -/
inductive CharClass where
  | digit      -- [0-9] / \d
  | space      -- \s
  | dot        -- . (anything but newline; DOTALL is not used here)
  | alpha      -- [A-Z] under re.IGNORECASE
  | notRParen  -- [^)]
  deriving DecidableEq

def CharClass.mem : CharClass → Char → Bool
  | .digit, c => '0' ≤ c && c ≤ '9'
  | .space, c => c = ' ' || c = '\t' || c = '\n' || c = '\r' || c = '\x0b' || c = '\x0c'
  | .dot, c => c ≠ '\n'
  | .alpha, c => ('A' ≤ c && c ≤ 'Z') || ('a' ≤ c && c ≤ 'z')
  | .notRParen, c => c ≠ ')'

def isWordChar (c : Char) : Bool :=
  ('A' ≤ c && c ≤ 'Z') || ('a' ≤ c && c ≤ 'z') || ('0' ≤ c && c ≤ '9') || c = '_'

/-- Regular expressions as used by the sources.  `lit s ci` is a literal
(case-insensitive when `ci`), `rep c lo hi` is greedy `{lo,hi}` over a
class, `starG`/`starL` are greedy/lazy `*` over a class, `opt` is greedy
`?`, `grp` a capture group and `wb` the word boundary `\b`. -/
inductive RE where
  | eps
  | lit (s : String) (ci : Bool)
  | cls (c : CharClass)
  | seq (a b : RE)
  | alt (a b : RE)
  | starG (c : CharClass)
  | starL (c : CharClass)
  | rep (c : CharClass) (lo hi : Nat)
  | opt (a : RE)
  | grp (n : Nat) (a : RE)
  | wb

/-- Captures: group number to captured substring, most recent first. -/
abbrev Caps := List (Nat × String)

/-- Matcher continuation: reversed consumed prefix, remaining input, captures. -/
abbrev Cont (α : Type) := List Char → List Char → Caps → Option α

/-- Strip a literal (`ci`: case-insensitively), extending the reversed prefix. -/
def litStrip (l : List Char) (ci : Bool) (rp s : List Char) :
    Option (List Char × List Char) :=
  match l with
  | [] => some (rp, s)
  | c :: cs =>
    match s with
    | [] => none
    | d :: ds =>
      if (if ci then c.toLower = d.toLower else c = d) then litStrip cs ci (d :: rp) ds
      else none

/-- Greedy Kleene star over a class: consume as much as possible, give back
one character at a time on continuation failure. -/
def starGCont (c : CharClass) : List Char → List Char → Caps → Cont α → Option α :=
  fun rp s caps k =>
    match s with
    | [] => k rp [] caps
    | ch :: t =>
      if c.mem ch then
        match starGCont c (ch :: rp) t caps k with
        | some r => some r
        | none => k rp (ch :: t) caps
      else k rp (ch :: t) caps

/-- Lazy Kleene star over a class: try the continuation first. -/
def starLCont (c : CharClass) : List Char → List Char → Caps → Cont α → Option α :=
  fun rp s caps k =>
    match k rp s caps with
    | some r => some r
    | none =>
      match s with
      | [] => none
      | ch :: t => if c.mem ch then starLCont c (ch :: rp) t caps k else none

/-- Greedy bounded repetition `{lo,hi}` over a class. -/
def repCont (c : CharClass) (lo : Nat) : Nat → List Char → List Char → Caps → Cont α → Option α
  | 0, rp, s, caps, k => if lo = 0 then k rp s caps else none
  | Nat.succ hi, rp, s, caps, k =>
    match s with
    | [] => if lo = 0 then k rp [] caps else none
    | ch :: t =>
      if c.mem ch then
        match repCont c (lo - 1) hi (ch :: rp) t caps k with
        | some r => some r
        | none => if lo = 0 then k rp (ch :: t) caps else none
      else if lo = 0 then k rp (ch :: t) caps else none

/-- The substring a group consumed: difference of the reversed prefixes. -/
def capString (rp rpNew : List Char) : String :=
  String.mk ((rpNew.take (rpNew.length - rp.length)).reverse)

def atWordBoundary (rp s : List Char) : Bool :=
  let prevWord := match rp with | [] => false | c :: _ => isWordChar c
  let nextWord := match s with | [] => false | c :: _ => isWordChar c
  prevWord != nextWord

/-- Backtracking matcher in continuation-passing style (Python semantics). -/
def matchRE : RE → List Char → List Char → Caps → Cont α → Option α
  | .eps, rp, s, caps, k => k rp s caps
  | .lit l ci, rp, s, caps, k =>
    match litStrip l.data ci rp s with
    | some (rp', s') => k rp' s' caps
    | none => none
  | .cls c, rp, s, caps, k =>
    match s with
    | [] => none
    | ch :: t => if c.mem ch then k (ch :: rp) t caps else none
  | .seq a b, rp, s, caps, k =>
    matchRE a rp s caps (fun rp' s' caps' => matchRE b rp' s' caps' k)
  | .alt a b, rp, s, caps, k =>
    match matchRE a rp s caps k with
    | some r => some r
    | none => matchRE b rp s caps k
  | .starG c, rp, s, caps, k => starGCont c rp s caps k
  | .starL c, rp, s, caps, k => starLCont c rp s caps k
  | .rep c lo hi, rp, s, caps, k => repCont c lo hi rp s caps k
  | .opt a, rp, s, caps, k =>
    match matchRE a rp s caps k with
    | some r => some r
    | none => k rp s caps
  | .grp n a, rp, s, caps, k =>
    matchRE a rp s caps (fun rp' s' caps' => k rp' s' ((n, capString rp rp') :: caps'))
  | .wb, rp, s, caps, k =>
    if atWordBoundary rp s then k rp s caps else none

/-- Try matching at each start position, leftmost first (like `re.search`). -/
def searchFrom (r : RE) : List Char → List Char → Option Caps
  | rp, s =>
    match matchRE r rp s [] (fun _ _ caps => some caps) with
    | some caps => some caps
    | none =>
      match s with
      | [] => none
      | ch :: t => searchFrom r (ch :: rp) t

/-- Source `re.search(pattern, text)`, returning the capture map on success. -/
def reSearch (r : RE) (text : String) : Option Caps :=
  searchFrom r [] text.data

/-- Source `match.group(n)`: `none` when the group did not participate. -/
def getCap (caps : Caps) (n : Nat) : Option String :=
  caps.lookup n

/-- Value of a digit string. -/
def digitsVal (cs : List Char) : ℕ :=
  cs.foldl (fun a c => a * 10 + (c.toNat - 48)) 0

/-- Python `float` on strings shaped `[0-9]+(\.[0-9]*)?`, idealised in `ℚ`. -/
def parseRat (s : String) : ℚ :=
  let p := s.data.span (fun c => c ≠ '.')
  let fp := p.2.drop 1
  (digitsVal p.1 : ℚ) + (digitsVal fp : ℚ) / ((10 : ℚ) ^ fp.length)

/-! ## Signal parser (src/parsers/gauls_signal_parser.py)

The patterns of `GaulsSignalParser.__init__`, transcribed one for one. -/

/-- Source `\s+` -/
def sp1 : RE := .seq (.cls .space) (.starG .space)

/-- Source `[0-9]+\.?[0-9]*` -/
def numRe : RE :=
  .seq (.cls .digit) (.seq (.starG .digit) (.seq (.opt (.lit "." false)) (.starG .digit)))

/-- Source `\$?([A-Z]{2,10})\s*.*(?:Setup|buying|Buying)`, IGNORECASE -/
def symbolRe : RE :=
  .seq (.opt (.lit "$" false))
    (.seq (.grp 1 (.rep .alpha 2 10))
      (.seq (.starG .space)
        (.seq (.starG .dot)
          (.alt (.lit "Setup" true) (.alt (.lit "buying" true) (.lit "Buying" true))))))

/-- Source `(?:Entry|ENTRY)\s*:\s*\$?([0-9]+\.?[0-9]*|CMP)(?:\s+down\s+to\s+\$?([0-9]+\.?[0-9]*))?`, IGNORECASE -/
def entryRe : RE :=
  .seq (.alt (.lit "Entry" true) (.lit "ENTRY" true))
    (.seq (.starG .space)
      (.seq (.lit ":" false)
        (.seq (.starG .space)
          (.seq (.opt (.lit "$" false))
            (.seq (.grp 1 (.alt numRe (.lit "CMP" true)))
              (.opt (.seq sp1
                (.seq (.lit "down" true)
                  (.seq sp1
                    (.seq (.lit "to" true)
                      (.seq sp1
                        (.seq (.opt (.lit "$" false)) (.grp 2 numRe)))))))))))))

/-- Source `(?:Entry|ENTRY)\s*:\s*\$?[0-9]+\.?[0-9]*\s*\(([^)]+)\)`, IGNORECASE -/
def hintRe : RE :=
  .seq (.alt (.lit "Entry" true) (.lit "ENTRY" true))
    (.seq (.starG .space)
      (.seq (.lit ":" false)
        (.seq (.starG .space)
          (.seq (.opt (.lit "$" false))
            (.seq numRe
              (.seq (.starG .space)
                (.seq (.lit "(" false)
                  (.seq (.grp 1 (.seq (.cls .notRParen) (.starG .notRParen)))
                    (.lit ")" false)))))))))

/-- Source `(?:TP|Target|TARGET)\s*:\s*\$?([0-9]+\.?[0-9]*)(x?)`, IGNORECASE -/
def tpRe : RE :=
  .seq (.alt (.lit "TP" true) (.alt (.lit "Target" true) (.lit "TARGET" true)))
    (.seq (.starG .space)
      (.seq (.lit ":" false)
        (.seq (.starG .space)
          (.seq (.opt (.lit "$" false))
            (.seq (.grp 1 numRe) (.grp 2 (.opt (.lit "x" true))))))))

/-- Source `(?:SL|Invalidation)\s*:\s*\$?([0-9]+\.?[0-9]*)`, IGNORECASE -/
def slRe : RE :=
  .seq (.alt (.lit "SL" true) (.lit "Invalidation" true))
    (.seq (.starG .space)
      (.seq (.lit ":" false)
        (.seq (.starG .space)
          (.seq (.opt (.lit "$" false)) (.grp 1 numRe)))))

/-- Source `RR\s*:\s*([0-9]+\.?[0-9]*)`, IGNORECASE -/
def rrRe : RE :=
  .seq (.lit "RR" true)
    (.seq (.starG .space) (.seq (.lit ":" false) (.seq (.starG .space) (.grp 1 numRe))))

/-- Source `buying\s+setup|Buying\s+Setup`, IGNORECASE -/
def buyingSetupRe : RE :=
  .alt (.seq (.lit "buying" true) (.seq sp1 (.lit "setup" true)))
    (.seq (.lit "Buying" true) (.seq sp1 (.lit "Setup" true)))

/-- Source `Entry:\s*([0-9]+\.?[0-9]*)-([0-9]+\.?[0-9]*)` (case sensitive), from the
multiplier branch of `parse_signal`. -/
def rangeRe : RE :=
  .seq (.lit "Entry:" false)
    (.seq (.starG .space) (.seq (.grp 1 numRe) (.seq (.lit "-" false) (.grp 2 numRe))))

/-- The dict built by `parse_signal`.  `insightId` and `timestamp` are the
keys attached later by the scanner (`.get` fallback is the empty string). -/
structure Signal where
  symbol : String
  side : String
  entry_price : Option ℚ
  entry_type : String
  entry_hint : Option String
  stop_loss : Option ℚ
  take_profit : Option ℚ
  risk_reward : Option ℚ
  conviction : String
  raw_text : String
  source : String
  original_target : Option ℚ
  insightId : String
  timestamp : String
  deriving DecidableEq

def initSignal (text sym : String) : Signal :=
  { symbol := sym ++ "/USDT", side := "buy", entry_price := none, entry_type := "market",
    entry_hint := none, stop_loss := none, take_profit := none, risk_reward := none,
    conviction := "high", raw_text := text, source := "gauls_copy", original_target := none,
    insightId := "", timestamp := "" }

/-- Source `0.63%` conservative limit buffer from `parse_signal`. -/
def conservativeBuffer : ℚ := 63 / 10000

/-- Python `str.upper()` (ASCII reading). -/
def pyUpper (s : String) : String :=
  String.mk (s.data.map Char.toUpper)

/-- Entry extraction step of `parse_signal` (lines 63-84).  The formatted
`entry_hint` text of the conservative branch is abstracted to a constant
string (no claim reads it). -/
def applyEntry (text : String) (s : Signal) : Signal :=
  match reSearch entryRe text with
  | none => s
  | some c =>
    let entryStr := (getCap c 1).getD ""
    let secondary := getCap c 2
    if pyUpper entryStr = "CMP" then
      match secondary with
      | some sp =>
        let target := parseRat sp
        let conservative := target * (1 + conservativeBuffer)
        { s with entry_type := "limit", entry_price := some conservative,
                 entry_hint := some "Conservative limit order",
                 original_target := some target }
      | none => { s with entry_type := "market" }
    else
      { s with entry_price := some (parseRat entryStr), entry_type := "limit" }

/-- Entry-hint step (lines 87-89). -/
def applyHint (text : String) (s : Signal) : Signal :=
  match reSearch hintRe text with
  | some c => { s with entry_hint := some (((getCap c 1).getD "").trim) }
  | none => s

/-- Stop-loss step (lines 92-94). -/
def applySL (text : String) (s : Signal) : Signal :=
  match reSearch slRe text with
  | some c => { s with stop_loss := some (parseRat ((getCap c 1).getD "")) }
  | none => s

def rangeGroups (text : String) : Option (Option String × Option String) :=
  (reSearch rangeRe text).map (fun c => (getCap c 1, getCap c 2))

/-- Take-profit step (lines 97-118), including the `x` multiplier branch. -/
def applyTP (text : String) (s : Signal) : Signal :=
  match reSearch tpRe text with
  | none => s
  | some c =>
    let v := parseRat ((getCap c 1).getD "")
    let isMult := getCap c 2 = some "x"
    if isMult then
      if truthyQ s.entry_price then
        { s with take_profit := some (s.entry_price.getD 0 * v) }
      else
        match rangeGroups text with
        | some g =>
          let lo := parseRat (g.1.getD "")
          let hi := parseRat (g.2.getD "")
          let mid := (lo + hi) / 2
          { s with take_profit := some (mid * v), entry_price := some mid,
                   risk_reward := some v }
        | none => { s with take_profit := some v, risk_reward := some v }
    else
      { s with take_profit := some v }

/-- Risk/reward step (lines 121-123). -/
def applyRR (text : String) (s : Signal) : Signal :=
  match reSearch rrRe text with
  | some c => { s with risk_reward := some (parseRat ((getCap c 1).getD "")) }
  | none => s

/-- The extracted symbol (group 1 of `symbolRe`; always set when the
pattern matches). -/
def symbolSym (text : String) : Option String :=
  (reSearch symbolRe text).bind (fun c => getCap c 1)

/-- Source `GaulsSignalParser.parse_signal`. -/
def parseSignal (text : String) : Option Signal :=
  if (reSearch buyingSetupRe text).isNone then none
  else
    match symbolSym text with
    | none => none
    | some sym =>
      let s := applyRR text (applyTP text (applySL text (applyHint text
        (applyEntry text (initSignal text sym)))))
      if s.symbol ≠ "" ∧ truthyQ s.stop_loss ∧ truthyQ s.take_profit then some s
      else none

/-- Spec-level view of the extracted stop-loss number (group 1 of `slRe`). -/
def slNum (text : String) : Option ℚ :=
  (reSearch slRe text).bind (fun c => (getCap c 1).map parseRat)

/-- Spec-level view of the extracted take-profit number (group 1 of `tpRe`). -/
def tpNum (text : String) : Option ℚ :=
  (reSearch tpRe text).bind (fun c => (getCap c 1).map parseRat)

/-- Spec-level view of the entry-pattern capture groups. -/
def entryGroups (text : String) : Option (Option String × Option String) :=
  (reSearch entryRe text).map (fun c => (getCap c 1, getCap c 2))

/-- Spec-level view of the take-profit capture groups. -/
def tpGroups (text : String) : Option (Option String × Option String) :=
  (reSearch tpRe text).map (fun c => (getCap c 1, getCap c 2))

/-! ## Exit monitor (src/monitors/exit_monitor_v2.py)

A row of the `trades` table.  `partial_exits_done` and `partial_pnl` have
schema defaults `0`; the quantity columns are NULLable. -/

inductive TStatus where
  | open_ | closed | pending
  deriving DecidableEq

structure TradeRow where
  symbol : String
  side : String
  entry_price : ℚ
  stop_loss : Option ℚ
  take_profit_1 : Option ℚ
  take_profit_2 : Option ℚ
  quantity : ℚ
  original_quantity : Option ℚ
  remaining_quantity : Option ℚ
  partial_exits_done : ℕ
  partial_pnl : ℚ
  status : TStatus
  exit_price : Option ℚ
  pnl : Option ℚ
  leverage : Option ℚ
  strategy : String
  entry_time : Int
  notes : String
  deriving DecidableEq

/-- A row of the `partial_exits` table. -/
structure PartialExitRow where
  exit_price : ℚ
  quantity_exited : ℚ
  pnl : ℚ
  tp_level : ℕ
  new_stop_loss : Option ℚ
  deriving DecidableEq

/-- Source `EnhancedExitMonitor` tier percentages. -/
def tp1ExitPercent : ℚ := 4 / 10
def tp2ExitPercent : ℚ := 3 / 10

/-- Source `min(orig_qty * exit_percent, remaining_qty)` of `execute_partial_exit`. -/
def exitQtyOf (t : TradeRow) (pct : ℚ) : ℚ :=
  min (pyOr t.original_quantity t.quantity * pct) (pyOr t.remaining_quantity t.quantity)

/-- Source `execute_partial_exit` (happy path on the exchange call).  Returns the
updated row, the inserted `partial_exits` record and the quantity sold.
When the remainder stays above the epsilon but `new_stop_loss` is `None`
(Python would raise comparing `None` with a float and roll back), the
result is `none` and the database is unchanged. -/
def executePartialExit (t : TradeRow) (exitPrice pct : ℚ) (tpLevel : ℕ)
    (newStop : Option ℚ) : Option (TradeRow × PartialExitRow × ℚ) :=
  let remaining := pyOr t.remaining_quantity t.quantity
  let exitQty := exitQtyOf t pct
  let pnlPerUnit := if t.side = "buy" then exitPrice - t.entry_price
                    else t.entry_price - exitPrice
  let pnl := pnlPerUnit * exitQty
  let rec_ : PartialExitRow :=
    { exit_price := exitPrice, quantity_exited := exitQty, pnl := pnl,
      tp_level := tpLevel, new_stop_loss := newStop }
  let newRemaining := remaining - exitQty
  let newPartials := t.partial_exits_done + 1
  if newRemaining ≤ 1 / 10000 then
    some ({ t with status := .closed, exit_price := some exitPrice,
                   remaining_quantity := some 0, partial_exits_done := newPartials,
                   partial_pnl := t.partial_pnl + pnl, pnl := some (t.partial_pnl + pnl),
                   notes := "Closed via partial exits" }, rec_, exitQty)
  else
    match newStop with
    | none => none
    | some ns =>
      let isFree := (t.side = "buy" ∧ ns ≥ t.entry_price) ∨ (t.side = "sell" ∧ ns ≤ t.entry_price)
      some ({ t with stop_loss := some ns, remaining_quantity := some newRemaining,
                     partial_exits_done := newPartials, partial_pnl := t.partial_pnl + pnl,
                     notes := if isFree then "FREE TRADE - Stop at entry" else "TP hit" },
            rec_, exitQty)

/-- The `remaining_quantity` NULL fallback of `close_remaining_position`
(`is None` check, not truthiness). -/
def dbRemaining (t : TradeRow) : ℚ :=
  match t.remaining_quantity with
  | none => t.quantity
  | some q => q

/-- Source `close_remaining_position` (happy path on the exchange call): closes the
remaining quantity, records total P&L.  Returns the updated row and the
quantity sold. -/
def closeRemainingPosition (t : TradeRow) (exitPrice : ℚ) (reason : String) :
    TradeRow × ℚ :=
  let remaining := dbRemaining t
  let finalPnl := if t.side = "buy" then (exitPrice - t.entry_price) * remaining
                  else (t.entry_price - exitPrice) * remaining
  let totalPnl := t.partial_pnl + finalPnl
  ({ t with status := .closed, exit_price := some exitPrice,
            remaining_quantity := some 0, pnl := some totalPnl, notes := reason },
   remaining)

inductive PollKind where
  | stopClose | tp1Hit | tp2Hit
  deriving DecidableEq

/-- Result of one price poll on one open trade. -/
structure PollResult where
  trade : TradeRow
  record : Option PartialExitRow
  soldQty : ℚ
  reason : Option String
  kind : PollKind
  deriving DecidableEq

/-- Source `check_exit_conditions`: stop-loss first, then TP2 (if one partial is
done), then TP1 (if none is done); `none` when nothing fires. -/
def checkExitConditions (t : TradeRow) (price : ℚ) : Option PollResult :=
  if t.side = "buy" then
    if truthyQ t.stop_loss ∧ price ≤ t.stop_loss.getD 0 then
      let reason := if t.stop_loss.getD 0 ≥ t.entry_price then "Breakeven Stop (Free Trade)"
                    else "Stop Loss Hit"
      let r := closeRemainingPosition t price reason
      some { trade := r.1, record := none, soldQty := r.2, reason := some reason,
             kind := .stopClose }
    else if t.partial_exits_done = 1 ∧ truthyQ t.take_profit_2 ∧ price ≥ t.take_profit_2.getD 0 then
      match executePartialExit t price tp2ExitPercent 2 t.take_profit_1 with
      | some r => some { trade := r.1, record := some r.2.1, soldQty := r.2.2,
                         reason := none, kind := .tp2Hit }
      | none => some { trade := t, record := none, soldQty := 0, reason := none, kind := .tp2Hit }
    else if t.partial_exits_done = 0 ∧ truthyQ t.take_profit_1 ∧ price ≥ t.take_profit_1.getD 0 then
      match executePartialExit t price tp1ExitPercent 1 (some t.entry_price) with
      | some r => some { trade := r.1, record := some r.2.1, soldQty := r.2.2,
                         reason := none, kind := .tp1Hit }
      | none => some { trade := t, record := none, soldQty := 0, reason := none, kind := .tp1Hit }
    else none
  else
    if truthyQ t.stop_loss ∧ price ≥ t.stop_loss.getD 0 then
      let reason := if t.stop_loss.getD 0 ≤ t.entry_price then "Breakeven Stop (Free Trade)"
                    else "Stop Loss Hit"
      let r := closeRemainingPosition t price reason
      some { trade := r.1, record := none, soldQty := r.2, reason := some reason,
             kind := .stopClose }
    else if t.partial_exits_done = 1 ∧ truthyQ t.take_profit_2 ∧ price ≤ t.take_profit_2.getD 0 then
      match executePartialExit t price tp2ExitPercent 2 t.take_profit_1 with
      | some r => some { trade := r.1, record := some r.2.1, soldQty := r.2.2,
                         reason := none, kind := .tp2Hit }
      | none => some { trade := t, record := none, soldQty := 0, reason := none, kind := .tp2Hit }
    else if t.partial_exits_done = 0 ∧ truthyQ t.take_profit_1 ∧ price ≤ t.take_profit_1.getD 0 then
      match executePartialExit t price tp1ExitPercent 1 (some t.entry_price) with
      | some r => some { trade := r.1, record := some r.2.1, soldQty := r.2.2,
                         reason := none, kind := .tp1Hit }
      | none => some { trade := t, record := none, soldQty := 0, reason := none, kind := .tp1Hit }
    else none

/-! ## Trade update processor (src/processors/gauls_trade_update_processor.py)

`update_patterns` of `GaulsTradeUpdateProcessor.__init__`, transcribed. -/

/-- Source `(\d+\.?\d*)R\s+(locked|done|reached|secured|taken)`, IGNORECASE -/
def rActionRe : RE :=
  .seq (.grp 1 numRe)
    (.seq (.lit "R" true)
      (.seq sp1
        (.grp 2 (.alt (.lit "locked" true)
          (.alt (.lit "done" true)
            (.alt (.lit "reached" true)
              (.alt (.lit "secured" true) (.lit "taken" true))))))))

/-- Source `risk.?free|move.*?(?:sl|stop.*?loss).*?(?:to|at).*?(?:entry|breakeven)|sl.?to.?breakeven|trade.*risk.free|moving.*?stop.*?to.*?entry`, IGNORECASE -/
def riskFreeRe : RE :=
  .alt (.seq (.lit "risk" true) (.seq (.opt (.cls .dot)) (.lit "free" true)))
    (.alt (.seq (.lit "move" true)
        (.seq (.starL .dot)
          (.seq (.alt (.lit "sl" true)
              (.seq (.lit "stop" true) (.seq (.starL .dot) (.lit "loss" true))))
            (.seq (.starL .dot)
              (.seq (.alt (.lit "to" true) (.lit "at" true))
                (.seq (.starL .dot)
                  (.alt (.lit "entry" true) (.lit "breakeven" true))))))))
      (.alt (.seq (.lit "sl" true)
          (.seq (.opt (.cls .dot))
            (.seq (.lit "to" true) (.seq (.opt (.cls .dot)) (.lit "breakeven" true)))))
        (.alt (.seq (.lit "trade" true)
            (.seq (.starG .dot)
              (.seq (.lit "risk" true) (.seq (.cls .dot) (.lit "free" true)))))
          (.seq (.lit "moving" true)
            (.seq (.starL .dot)
              (.seq (.lit "stop" true)
                (.seq (.starL .dot)
                  (.seq (.lit "to" true) (.seq (.starL .dot) (.lit "entry" true))))))))))

/-- Source `book\s+(\d+)%|take\s+(\d+)%|partial.*(\d+)%`, IGNORECASE -/
def bookPct : RE := .seq (.cls .digit) (.starG .digit)

def bookPartialRe : RE :=
  .alt (.seq (.lit "book" true) (.seq sp1 (.seq (.grp 1 bookPct) (.lit "%" false))))
    (.alt (.seq (.lit "take" true) (.seq sp1 (.seq (.grp 2 bookPct) (.lit "%" false))))
      (.seq (.lit "partial" true)
        (.seq (.starG .dot) (.seq (.grp 3 bookPct) (.lit "%" false)))))

/-- Source `clos(?:e|ing)\s+(?:it\s+)?here|exit|out|done`, IGNORECASE -/
def fullExitRe : RE :=
  .alt (.seq (.lit "clos" true)
      (.seq (.alt (.lit "e" true) (.lit "ing" true))
        (.seq sp1 (.seq (.opt (.seq (.lit "it" true) sp1)) (.lit "here" true)))))
    (.alt (.lit "exit" true) (.alt (.lit "out" true) (.lit "done" true)))

/-- Source `\b(?:both|all)\s+(?:trades?|positions?)\b`, IGNORECASE -/
def bothAllRe : RE :=
  .seq .wb
    (.seq (.alt (.lit "both" true) (.lit "all" true))
      (.seq sp1
        (.seq (.alt (.seq (.lit "trade" true) (.opt (.lit "s" true)))
            (.seq (.lit "position" true) (.opt (.lit "s" true))))
          .wb)))

/-- Source `let(?:ting)?\s+(?:the\s+)?(?:final\s+)?targets?\s+cook|patience|hold`, IGNORECASE -/
def letCookRe : RE :=
  .alt (.seq (.lit "let" true)
      (.seq (.opt (.lit "ting" true))
        (.seq sp1
          (.seq (.opt (.seq (.lit "the" true) sp1))
            (.seq (.opt (.seq (.lit "final" true) sp1))
              (.seq (.lit "target" true)
                (.seq (.opt (.lit "s" true)) (.seq sp1 (.lit "cook" true)))))))))
    (.alt (.lit "patience" true) (.lit "hold" true))

/-- The dict returned by `extract_generic_instructions`:
`all_risk_free`, `let_cook`, `no_partial_exit`. -/
structure GenericInstr where
  allRiskFree : Bool
  letCook : Bool
  noPartialExit : Bool
  deriving DecidableEq

def extractGenericInstructions (msg : String) : GenericInstr :=
  let hasRiskFree := (reSearch riskFreeRe msg).isSome
  let hasBothAll := (reSearch bothAllRe msg).isSome
  let cook := (reSearch letCookRe msg).isSome
  { allRiskFree := hasRiskFree && hasBothAll, letCook := cook, noPartialExit := cook }

/-- An action dict produced by `determine_action` / `determine_action_enhanced`.
Numeric formatting inside the `typeStr` of the R branches is abstracted by
Lean's rational rendering; no claim reads those strings. -/
structure UAction where
  typeStr : String
  partialPercent : Option ℚ
  moveSlTo : Option String
  rValue : Option ℚ
  deriving DecidableEq

/-- The `risk_free` and `full_exit` tail of `determine_action`. -/
def riskFreeOrExit (msg : String) (bookPercent : Option ℚ) : Option UAction :=
  if (reSearch riskFreeRe msg).isSome then
    some { typeStr := "make_risk_free", partialPercent := bookPercent,
           moveSlTo := some "breakeven", rValue := none }
  else if (reSearch fullExitRe msg).isSome then
    some { typeStr := "full_exit", partialPercent := some 100,
           moveSlTo := none, rValue := none }
  else none

/-- Source `determine_action` (lines 221-284). -/
def determineAction (msg : String) : Option UAction :=
  let rStep : Option UAction :=
    match reSearch rActionRe msg with
    | some c =>
      let r := parseRat ((getCap c 1).getD "")
      if 1 ≤ r ∧ r < 2 then
        some { typeStr := toString r ++ "R_partial", partialPercent := some 40,
               moveSlTo := some "breakeven", rValue := some r }
      else if 2 ≤ r then
        some { typeStr := toString r ++ "R_partial", partialPercent := some 30,
               moveSlTo := none, rValue := some r }
      else none
    | none => none
  match rStep with
  | some a => some a
  | none =>
    let bookPercent : Option ℚ :=
      match reSearch bookPartialRe msg with
      | some c =>
        match getCap c 1 with
        | some g => some (parseRat g)
        | none =>
          match getCap c 2 with
          | some g => some (parseRat g)
          | none => (getCap c 3).map parseRat
      | none => none
    match bookPercent with
    | some p =>
      if p ≠ 0 then
        some { typeStr := "book_partial", partialPercent := some p,
               moveSlTo := none, rValue := none }
      else riskFreeOrExit msg bookPercent
    | none => riskFreeOrExit msg bookPercent

/-- Source `determine_action_enhanced` (lines 196-219): a generic risk-free
instruction wins and never carries a partial percentage.  The source's
`symbol_data` argument is never read by the function and is omitted. -/
def determineActionEnhanced (msg : String) (gi : GenericInstr) : Option UAction :=
  if gi.allRiskFree then
    some { typeStr := "risk_free_generic", partialPercent := none,
           moveSlTo := some "breakeven", rValue := none }
  else determineAction msg

/-- The breakeven stop of `move_stop_to_breakeven`: entry plus a 0.1% fee pad. -/
def breakevenPrice (t : TradeRow) : ℚ :=
  t.entry_price * (if t.side = "buy" then 1001 / 1000 else 999 / 1000)

/-- Source `move_stop_to_breakeven`. -/
def moveStopToBreakeven (t : TradeRow) : TradeRow :=
  { t with stop_loss := some (breakevenPrice t),
           notes := t.notes ++ " | SL moved to breakeven" }

/-- Source `update_trade_partial`: inserts a `partial_exits` row and updates the
trade (SQL keeps a NULL `remaining_quantity` NULL). -/
def updateTradePartialExit (t : TradeRow) (partialQty exitPrice : ℚ) (actionType : String) :
    TradeRow × PartialExitRow :=
  let pnl := if t.side = "buy" then (exitPrice - t.entry_price) * partialQty
             else (t.entry_price - exitPrice) * partialQty
  let rec_ : PartialExitRow :=
    { exit_price := exitPrice, quantity_exited := partialQty, pnl := pnl,
      tp_level := if actionType.contains '1' then 1 else 2, new_stop_loss := none }
  ({ t with remaining_quantity := t.remaining_quantity.map (fun q => q - partialQty),
            partial_exits_done := t.partial_exits_done + 1,
            partial_pnl := t.partial_pnl + pnl,
            notes := t.notes ++ " | Gauls " ++ actionType }, rec_)

/-- Source `close_trade` of the update processor: sets only status, exit price,
exit time and notes. -/
def closeTrade (t : TradeRow) (exitPrice : ℚ) : TradeRow :=
  { t with status := .closed, exit_price := some exitPrice,
           notes := t.notes ++ " | Closed by Gauls update" }

/-- Result of `execute_action` on one trade. -/
structure ActionResult where
  trade : TradeRow
  record : Option PartialExitRow
  soldQty : ℚ
  deriving DecidableEq

/-- Source `execute_action` (lines 318-370), happy path: the dict value
`remaining_quantity` was NULL-defaulted by `get_matching_trades`. -/
def executeAction (price : ℚ) (t : TradeRow) (a : UAction) : ActionResult :=
  let remainingQty := pyOr t.remaining_quantity t.quantity
  let pct := a.partialPercent.getD 0
  let partialQty := remainingQty * (pct / 100)
  let step : TradeRow × Option PartialExitRow × ℚ :=
    if partialQty > 0 then
      if pct < 100 then
        let r := updateTradePartialExit t partialQty price a.typeStr
        (r.1, some r.2, partialQty)
      else
        (closeTrade t price, none, remainingQty)
    else (t, none, 0)
  let t2 := if a.moveSlTo = some "breakeven" then moveStopToBreakeven step.1 else step.1
  { trade := t2, record := step.2.1, soldQty := step.2.2 }

/-! ### Processed-update markers (`load_processed_updates` / `mark_as_processed`)

`mark_as_processed` persists `str(message_hash)` into a TEXT column and adds
the `int` to the in-memory set; `load_processed_updates` reloads the TEXT
column, so a restarted process holds strings while `scan_for_updates`
membership-tests the freshly computed `int` hash. -/

inductive PyVal where
  | int (n : Int)
  | str (s : String)
  deriving DecidableEq

/-- The in-memory `processed_updates` set rebuilt at startup from the
persisted TEXT markers. -/
def loadProcessedUpdates (persisted : List String) : List PyVal :=
  persisted.map .str

/-- The `message_hash not in self.processed_updates` test of
`scan_for_updates` (negated): membership of the fresh `int` hash. -/
def updateSeen (processed : List PyVal) (h : Int) : Bool :=
  processed.contains (.int h)

/-! ## Copy trader (src/core/gauls_copy_trader.py)

Configuration constants (lines 33-35). -/

def maxLossPerTradeEur : ℚ := 25
def gaulsLeverage : ℚ := 10
def marginUsagePct : ℚ := 9 / 10

/-- The fixed-risk sizing block of `execute_gauls_signal` (lines 667-689),
before the LLM position-size modifier. -/
structure Sizing where
  quantity : ℚ
  actualRisk : ℚ
  marginRequired : ℚ
  scaledDown : Bool
  deriving DecidableEq

def positionSizeCore (available executionPrice riskPerUnit : ℚ) : Sizing :=
  let maxUnits := maxLossPerTradeEur / riskPerUnit
  let positionValue := maxUnits * executionPrice
  let marginRequired := positionValue / gaulsLeverage
  if marginRequired > available then
    let affordableMargin := available * marginUsagePct
    let pv := affordableMargin * gaulsLeverage
    let mu := pv / executionPrice
    { quantity := mu, actualRisk := mu * riskPerUnit,
      marginRequired := marginRequired, scaledDown := true }
  else
    { quantity := maxUnits, actualRisk := maxLossPerTradeEur,
      marginRequired := marginRequired, scaledDown := false }

/-- A `processed_gauls_signals` row (hash, symbol, timestamp). -/
structure SignalMarker where
  hash : String
  symbol : String
  timestamp : String
  deriving DecidableEq

/-- An exchange order as returned by `create_order`. -/
structure Order where
  symbol : String
  orderType : String
  side : String
  amount : ℚ
  price : ℚ
  deriving DecidableEq

/-- Trader-visible persistent state: processed-signal markers, the `trades`
table, the in-memory position keys and the orders sent to the exchange. -/
structure TraderState where
  processed : List SignalMarker
  trades : List TradeRow
  positions : List String
  orders : List Order
  deriving DecidableEq

/-- External collaborators for one `execute_gauls_signal` call: ticker
price, free USDT margin, the LLM execution plan for non-market signals, the
LLM-adjusted entry for hints, and the clock. -/
structure ExecEnv where
  price : ℚ
  available : ℚ
  planShouldExecute : Bool
  planModifier : ℚ
  llmAdjustedEntry : ℚ
  now : Int
  deriving DecidableEq

/-- Source `_is_signal_already_processed`: fingerprint or (symbol, timestamp). -/
def isSignalAlreadyProcessed (md5 : String → String) (st : TraderState) (sig : Signal) : Bool :=
  st.processed.any (fun m =>
    m.hash = md5 sig.raw_text ∨ (m.symbol = sig.symbol ∧ m.timestamp = sig.timestamp))

/-- Source `_has_recent_trade` with the 5-minute cooldown. -/
def hasRecentTrade (st : TraderState) (now : Int) (symbol : String) : Bool :=
  st.trades.any (fun t =>
    t.symbol = symbol ∧ t.strategy = "gauls_copy" ∧ t.entry_time > now - 300 ∧ t.status = .open_)

/-- Source `_record_processed_signal` (INSERT OR IGNORE). -/
def recordProcessedSignal (md5 : String → String) (st : TraderState) (sig : Signal) :
    TraderState :=
  { st with processed :=
      { hash := md5 sig.raw_text, symbol := sig.symbol, timestamp := sig.timestamp }
        :: st.processed }

/-- Source `_record_gauls_trade`: inserts the trade row (remaining = quantity,
`original_quantity` left NULL) and then records the processed marker.  The
LLM note text is abstracted. -/
def recordGaulsTrade (md5 : String → String) (env : ExecEnv) (st : TraderState)
    (sig : Signal) (order : Order) (entryPrice : ℚ) (status : TStatus) : TraderState :=
  let row : TradeRow :=
    { symbol := sig.symbol, side := sig.side, entry_price := entryPrice,
      stop_loss := some (sig.stop_loss.getD 0),
      take_profit_1 := some (sig.take_profit.getD 0), take_profit_2 := some 0,
      quantity := order.amount, original_quantity := none,
      remaining_quantity := some order.amount, partial_exits_done := 0,
      partial_pnl := 0, status := status, exit_price := none, pnl := none,
      leverage := some gaulsLeverage, strategy := "gauls_copy",
      entry_time := env.now, notes := "Gauls Copy Trade" }
  recordProcessedSignal md5 { st with trades := row :: st.trades } sig

/-- The LLM execution plan: a CMP (market) signal skips the analyzer. -/
def execPlan (env : ExecEnv) (sig : Signal) : Bool × ℚ :=
  if sig.entry_type = "market" then (true, 1)
  else (env.planShouldExecute, env.planModifier)

/-- Target entry selection (market → current price; hint → LLM adjustment;
otherwise the signal's entry price). -/
def execTargetEntry (env : ExecEnv) (sig : Signal) : ℚ :=
  if sig.entry_type = "market" then env.price
  else if sig.entry_hint.isSome then env.llmAdjustedEntry
  else sig.entry_price.getD env.price

/-- Smart order-type selection: order type and execution price. -/
def execOrderChoice (env : ExecEnv) (sig : Signal) : String × ℚ :=
  if sig.entry_type = "market" then ("market", env.price)
  else
    let targetEntry := execTargetEntry env sig
    let diffPct := |env.price - targetEntry| / targetEntry * 100
    if sig.entry_type = "limit" ∧ diffPct > 1 then
      if sig.side = "buy" ∧ env.price > targetEntry then ("limit", targetEntry)
      else if sig.side = "sell" ∧ env.price < targetEntry then ("limit", targetEntry)
      else ("market", env.price)
    else ("market", env.price)

/-- The tail of `execute_gauls_signal` after the three dedup/cooldown gates
and the LLM gate: price fetch, smart order-type selection, fixed-risk
sizing, order placement, bookkeeping. -/
def executeSignalCore (md5 : String → String) (env : ExecEnv) (st : TraderState)
    (sig : Signal) : Option Order × TraderState :=
  let ot := execOrderChoice env sig
  if ¬ truthyQ sig.stop_loss then (none, st)
  else
    let stopLoss := sig.stop_loss.getD 0
    let riskPerUnit := |ot.2 - stopLoss|
    if riskPerUnit = 0 then (none, st)
    else
      let sz := positionSizeCore env.available ot.2 riskPerUnit
      let quantity := sz.quantity * (execPlan env sig).2
      let order : Order :=
        { symbol := sig.symbol, orderType := ot.1, side := sig.side,
          amount := quantity, price := ot.2 }
      let orderStatus : TStatus := if ot.1 = "limit" then .pending else .open_
      let st1 := { st with orders := order :: st.orders }
      let st2 := recordGaulsTrade md5 env st1 sig order ot.2 orderStatus
      let signalKey := sig.symbol ++ "_" ++ sig.insightId
      (some order, { st2 with positions := signalKey :: st2.positions })

/-- Source `execute_gauls_signal` (lines 550-742), happy path. -/
def executeGaulsSignal (md5 : String → String) (env : ExecEnv) (st : TraderState)
    (sig : Signal) : Option Order × TraderState :=
  if isSignalAlreadyProcessed md5 st sig then (none, st)
  else if hasRecentTrade st env.now sig.symbol then (none, st)
  else if st.positions.contains (sig.symbol ++ "_" ++ sig.insightId) then
    (none, recordProcessedSignal md5 st sig)
  else if sig.entry_type ≠ "market" ∧ ¬ env.planShouldExecute then (none, st)
  else executeSignalCore md5 env st sig

/-! ## Derived predicates used by the claim statements -/

/-- The reason string `check_exit_conditions` passes to
`close_remaining_position` when the stop (value `s`) is crossed. -/
def stopReason (t : TradeRow) (s : ℚ) : String :=
  if t.side = "buy" then
    if s ≥ t.entry_price then "Breakeven Stop (Free Trade)" else "Stop Loss Hit"
  else
    if s ≤ t.entry_price then "Breakeven Stop (Free Trade)" else "Stop Loss Hit"

/-- The price also crosses a (set) take-profit tier, side-aware. -/
def tpCrossed (t : TradeRow) (price : ℚ) : Prop :=
  if t.side = "buy" then
    (truthyQ t.take_profit_1 = true ∧ price ≥ t.take_profit_1.getD 0) ∨
    (truthyQ t.take_profit_2 = true ∧ price ≥ t.take_profit_2.getD 0)
  else
    (truthyQ t.take_profit_1 = true ∧ price ≤ t.take_profit_1.getD 0) ∨
    (truthyQ t.take_profit_2 = true ∧ price ≤ t.take_profit_2.getD 0)

/-! ## Theorems -/

/-- C4: after a process restart, `load_processed_updates` fills the
in-memory set with the persisted TEXT markers (strings), while
`scan_for_updates` tests membership of the freshly computed `int` hash:
no re-delivered update is ever recognised as processed, so it is
re-executed.  This contradicts the claim that the fingerprint is a stable
content hash making re-delivery a no-op across restarts. -/
theorem restart_dedup_never_matches (persisted : List String) (h : Int) :
    updateSeen (loadProcessedUpdates persisted) h = false := by
  simp only [updateSeen, loadProcessedUpdates]
  induction persisted with
  | nil => rfl
  | cons p ps ih => simpa [List.contains_cons] using ih

/-- Branch lemma: the sizer scales down exactly when the required margin
exceeds the whole available free margin. -/
theorem positionSizeCore_scaled (a p r : ℚ)
    (h : maxLossPerTradeEur / r * p / gaulsLeverage > a) :
    positionSizeCore a p r =
      { quantity := a * marginUsagePct * gaulsLeverage / p,
        actualRisk := a * marginUsagePct * gaulsLeverage / p * r,
        marginRequired := maxLossPerTradeEur / r * p / gaulsLeverage,
        scaledDown := true } := by
  simp only [positionSizeCore]
  rw [if_pos h]

theorem positionSizeCore_unscaled (a p r : ℚ)
    (h : ¬ maxLossPerTradeEur / r * p / gaulsLeverage > a) :
    positionSizeCore a p r =
      { quantity := maxLossPerTradeEur / r,
        actualRisk := maxLossPerTradeEur,
        marginRequired := maxLossPerTradeEur / r * p / gaulsLeverage,
        scaledDown := false } := by
  simp only [positionSizeCore]
  rw [if_neg h]

/-- C7 counterexample: with 260 available, entry 100 and stop distance 1,
the required margin 250 exceeds 90% of the available margin (234), yet the
sizer does not scale down and the realized risk equals the configured
maximum instead of being strictly below it. -/
theorem margin_scaledown_counterexample :
    (positionSizeCore 260 100 1).marginRequired = 250 ∧
    marginUsagePct * 260 < (positionSizeCore 260 100 1).marginRequired ∧
    (positionSizeCore 260 100 1).scaledDown = false ∧
    (positionSizeCore 260 100 1).actualRisk = maxLossPerTradeEur := by
  have h : ¬ maxLossPerTradeEur / 1 * 100 / gaulsLeverage > (260 : ℚ) := by
    norm_num [maxLossPerTradeEur, gaulsLeverage]
  rw [positionSizeCore_unscaled 260 100 1 h]
  norm_num [maxLossPerTradeEur, gaulsLeverage, marginUsagePct]

/-- C7 (amended): the scale-down path triggers only when the required
margin exceeds the whole available free margin (not 90% of it); it then
uses `available × 0.9` as affordable margin, recomputes the quantity and
realized risk from it, flags the scale-down and the realized risk is
strictly below the configured maximum loss.  Without scale-down the
quantity is `max_loss / riskPerUnit` so that `quantity × riskPerUnit`
equals the configured maximum loss exactly. -/
theorem margin_scaledown_sizing :
    (∀ available price risk : ℚ, 0 < price → 0 < risk →
      maxLossPerTradeEur / risk * price / gaulsLeverage > available →
      (positionSizeCore available price risk).scaledDown = true ∧
      (positionSizeCore available price risk).quantity =
        available * marginUsagePct * gaulsLeverage / price ∧
      (positionSizeCore available price risk).actualRisk =
        available * marginUsagePct * gaulsLeverage / price * risk ∧
      (positionSizeCore available price risk).actualRisk < maxLossPerTradeEur) ∧
    (∀ available price risk : ℚ, 0 < risk →
      ¬ (maxLossPerTradeEur / risk * price / gaulsLeverage > available) →
      (positionSizeCore available price risk).scaledDown = false ∧
      (positionSizeCore available price risk).quantity = maxLossPerTradeEur / risk ∧
      (positionSizeCore available price risk).quantity * risk = maxLossPerTradeEur ∧
      (positionSizeCore available price risk).actualRisk = maxLossPerTradeEur) := by
  constructor
  · intro a p r hp hr h
    rw [positionSizeCore_scaled a p r h]
    refine ⟨rfl, rfl, rfl, ?_⟩
    have h1 : a * (r * 10) < 25 * p := by
      have h' : a < 25 / r * p / 10 := by
        have := h
        rw [maxLossPerTradeEur, gaulsLeverage] at this
        exact this
      rw [div_mul_eq_mul_div, div_div, lt_div_iff (by positivity)] at h'
      linarith
    show a * marginUsagePct * gaulsLeverage / p * r < maxLossPerTradeEur
    rw [div_mul_eq_mul_div, div_lt_iff hp]
    have h2 : a * marginUsagePct * gaulsLeverage * r = 9 * (a * r) := by
      rw [marginUsagePct, gaulsLeverage]; ring
    have h3 : maxLossPerTradeEur * p = 25 * p := by rw [maxLossPerTradeEur]
    rw [h2, h3]
    rcases le_or_lt 0 (a * r) with har | har
    · nlinarith
    · nlinarith
  · intro a p r hr h
    rw [positionSizeCore_unscaled a p r h]
    refine ⟨rfl, rfl, ?_, rfl⟩
    show maxLossPerTradeEur / r * r = maxLossPerTradeEur
    exact div_mul_cancel₀ _ (ne_of_gt hr)

/-- C7 witness: the scaled case at (available 200, price 100, stop
distance 1) and the unconstrained case at (available 260, price 100, stop
distance 1). -/
theorem margin_scaledown_sizing_witness :
    ((positionSizeCore 200 100 1).scaledDown = true ∧
     (positionSizeCore 200 100 1).actualRisk < maxLossPerTradeEur) ∧
    ((positionSizeCore 260 100 1).scaledDown = false ∧
     (positionSizeCore 260 100 1).quantity * 1 = maxLossPerTradeEur) := by
  have h1 := margin_scaledown_sizing.1 200 100 1 (by norm_num) (by norm_num)
    (by norm_num [maxLossPerTradeEur, gaulsLeverage])
  have h2 := margin_scaledown_sizing.2 260 100 1 (by norm_num)
    (by norm_num [maxLossPerTradeEur, gaulsLeverage])
  exact ⟨⟨h1.1, h1.2.2.2⟩, h2.1, h2.2.2.1⟩

/-- C2: on a poll where the price crosses both the stop and a take-profit
tier, the stop check fires first: the whole remaining quantity is closed,
no partial exit is recorded, and the reason is the breakeven tag exactly
when the stop is at or beyond entry (side-aware, via `stopReason`). -/
theorem stop_checked_before_tp (t : TradeRow) (price s : ℚ)
    (hopen : t.status = .open_)
    (hsl : t.stop_loss = some s) (hs0 : s ≠ 0)
    (hcross : if t.side = "buy" then price ≤ s else price ≥ s)
    (htp : tpCrossed t price) :
    ∃ r, checkExitConditions t price = some r ∧
      r.kind = .stopClose ∧
      r.record = none ∧
      r.soldQty = dbRemaining t ∧
      r.trade.status = .closed ∧
      r.trade.remaining_quantity = some 0 ∧
      r.reason = some (stopReason t s) := by
  have ht : truthyQ t.stop_loss = true := by
    rw [hsl]; simp [truthyQ, hs0]
  by_cases hb : t.side = "buy"
  · have hle : price ≤ t.stop_loss.getD 0 := by rw [hsl]; simpa [hb] using hcross
    have hreason : (if t.stop_loss.getD 0 ≥ t.entry_price then "Breakeven Stop (Free Trade)"
        else "Stop Loss Hit") = stopReason t s := by
      rw [stopReason, if_pos hb, hsl]; rfl
    refine ⟨{ trade := (closeRemainingPosition t price (stopReason t s)).1, record := none,
              soldQty := (closeRemainingPosition t price (stopReason t s)).2,
              reason := some (stopReason t s), kind := .stopClose }, ?_, rfl, rfl, rfl, rfl, rfl, rfl⟩
    simp only [checkExitConditions]
    rw [if_pos hb, if_pos ⟨ht, hle⟩, hreason]
  · have hge : price ≥ t.stop_loss.getD 0 := by rw [hsl]; simpa [hb] using hcross
    have hreason : (if t.stop_loss.getD 0 ≤ t.entry_price then "Breakeven Stop (Free Trade)"
        else "Stop Loss Hit") = stopReason t s := by
      rw [stopReason, if_neg hb, hsl]; rfl
    refine ⟨{ trade := (closeRemainingPosition t price (stopReason t s)).1, record := none,
              soldQty := (closeRemainingPosition t price (stopReason t s)).2,
              reason := some (stopReason t s), kind := .stopClose }, ?_, rfl, rfl, rfl, rfl, rfl, rfl⟩
    simp only [checkExitConditions]
    rw [if_neg hb, if_pos ⟨ht, hge⟩, hreason]

/-- A long with stop beyond entry and TP1 below the stop; price 97 crosses both. -/
def stopBothTrade : TradeRow :=
  { symbol := "X/USDT", side := "buy", entry_price := 90, stop_loss := some 100,
    take_profit_1 := some 95, take_profit_2 := none, quantity := 2,
    original_quantity := some 2, remaining_quantity := some 2,
    partial_exits_done := 0, partial_pnl := 0, status := .open_,
    exit_price := none, pnl := none, leverage := some 1,
    strategy := "gauls_copy", entry_time := 0, notes := "" }

/-- C2 witness: entry 90, stop 100, TP1 95, price 97 crosses both; the poll
closes the full remaining quantity with the breakeven tag and no partial. -/
theorem stop_checked_before_tp_witness :
    ∃ r, checkExitConditions stopBothTrade 97 = some r ∧
      r.kind = .stopClose ∧ r.record = none ∧
      r.soldQty = dbRemaining stopBothTrade ∧
      r.trade.status = .closed ∧ r.trade.remaining_quantity = some 0 ∧
      r.reason = some (stopReason stopBothTrade 100) :=
  stop_checked_before_tp stopBothTrade 97 100 rfl rfl (by norm_num)
    (by norm_num [stopBothTrade]) (by norm_num [tpCrossed, stopBothTrade, truthyQ])



/-- Branch lemma: `execute_partial_exit` when the remainder stays above the
epsilon and a new stop value is supplied. -/
theorem executePartialExit_partial (t : TradeRow) (exitPrice pct : ℚ) (lvl : ℕ) (ns : ℚ)
    (h : ¬ (pyOr t.remaining_quantity t.quantity - exitQtyOf t pct ≤ 1 / 10000)) :
    executePartialExit t exitPrice pct lvl (some ns) =
      some ({ t with stop_loss := some ns,
                     remaining_quantity :=
                       some (pyOr t.remaining_quantity t.quantity - exitQtyOf t pct),
                     partial_exits_done := t.partial_exits_done + 1,
                     partial_pnl := t.partial_pnl +
                       (if t.side = "buy" then exitPrice - t.entry_price
                        else t.entry_price - exitPrice) * exitQtyOf t pct,
                     notes := if (t.side = "buy" ∧ ns ≥ t.entry_price) ∨
                                 (t.side = "sell" ∧ ns ≤ t.entry_price)
                              then "FREE TRADE - Stop at entry" else "TP hit" },
            { exit_price := exitPrice, quantity_exited := exitQtyOf t pct,
              pnl := (if t.side = "buy" then exitPrice - t.entry_price
                      else t.entry_price - exitPrice) * exitQtyOf t pct,
              tp_level := lvl, new_stop_loss := some ns },
            exitQtyOf t pct) := by
  simp only [executePartialExit]
  rw [if_neg h]

/-- Branch lemma: `execute_partial_exit` when the exit exhausts the remainder. -/
theorem executePartialExit_exhaust (t : TradeRow) (exitPrice pct : ℚ) (lvl : ℕ)
    (newStop : Option ℚ)
    (h : pyOr t.remaining_quantity t.quantity - exitQtyOf t pct ≤ 1 / 10000) :
    executePartialExit t exitPrice pct lvl newStop =
      some ({ t with status := .closed, exit_price := some exitPrice,
                     remaining_quantity := some 0,
                     partial_exits_done := t.partial_exits_done + 1,
                     partial_pnl := t.partial_pnl +
                       (if t.side = "buy" then exitPrice - t.entry_price
                        else t.entry_price - exitPrice) * exitQtyOf t pct,
                     pnl := some (t.partial_pnl +
                       (if t.side = "buy" then exitPrice - t.entry_price
                        else t.entry_price - exitPrice) * exitQtyOf t pct),
                     notes := "Closed via partial exits" },
            { exit_price := exitPrice, quantity_exited := exitQtyOf t pct,
              pnl := (if t.side = "buy" then exitPrice - t.entry_price
                      else t.entry_price - exitPrice) * exitQtyOf t pct,
              tp_level := lvl, new_stop_loss := newStop },
            exitQtyOf t pct) := by
  simp only [executePartialExit]
  rw [if_pos h]



/-- C6 (amended): the price-driven close paths pin the remaining quantity
to 0 and record realized P&L as accumulated partial P&L plus the final
slice, both when a partial exit exhausts the remainder (below the epsilon)
and in `close_remaining_position`; but the update-processor full-close
(`close_trade`) only flips the status and exit price, leaving remaining
quantity and realized P&L untouched. -/
theorem full_close_bookkeeping :
    (∀ (t : TradeRow) (exitPrice pct : ℚ) (lvl : ℕ) (newStop : Option ℚ),
      pyOr t.remaining_quantity t.quantity - exitQtyOf t pct ≤ 1 / 10000 →
      ∃ out rec soldq,
        executePartialExit t exitPrice pct lvl newStop = some (out, rec, soldq) ∧
        out.status = .closed ∧ out.remaining_quantity = some 0 ∧
        out.pnl = some (t.partial_pnl + rec.pnl) ∧
        rec.pnl = (if t.side = "buy" then exitPrice - t.entry_price
                   else t.entry_price - exitPrice) * exitQtyOf t pct ∧
        rec.quantity_exited = exitQtyOf t pct) ∧
    (∀ (t : TradeRow) (exitPrice : ℚ) (reason : String),
      (closeRemainingPosition t exitPrice reason).1.status = .closed ∧
      (closeRemainingPosition t exitPrice reason).1.remaining_quantity = some 0 ∧
      (closeRemainingPosition t exitPrice reason).1.pnl =
        some (t.partial_pnl + (if t.side = "buy" then (exitPrice - t.entry_price) * dbRemaining t
                               else (t.entry_price - exitPrice) * dbRemaining t))) ∧
    (∀ (t : TradeRow) (exitPrice : ℚ),
      (closeTrade t exitPrice).status = .closed ∧
      (closeTrade t exitPrice).remaining_quantity = t.remaining_quantity ∧
      (closeTrade t exitPrice).pnl = t.pnl) := by
  refine ⟨?_, ?_, ?_⟩
  · intro t exitPrice pct lvl newStop h
    rw [executePartialExit_exhaust t exitPrice pct lvl newStop h]
    exact ⟨_, _, _, rfl, rfl, rfl, rfl, rfl, rfl⟩
  · intro t exitPrice reason
    exact ⟨rfl, rfl, rfl⟩
  · intro t exitPrice
    exact ⟨rfl, rfl, rfl⟩

def exhaustTrade : TradeRow :=
  { symbol := "X/USDT", side := "buy", entry_price := 100, stop_loss := some 100,
    take_profit_1 := some 110, take_profit_2 := some 120, quantity := 10,
    original_quantity := some 10, remaining_quantity := some 3,
    partial_exits_done := 1, partial_pnl := 44, status := .open_,
    exit_price := none, pnl := none, leverage := some 1,
    strategy := "gauls_copy", entry_time := 0, notes := "" }

/-- C6 witness: a final 30% slice that exactly exhausts the remainder. -/
theorem full_close_bookkeeping_witness :
    ∃ out rec soldq,
      executePartialExit exhaustTrade 120 (3 / 10) 2 (some 110) = some (out, rec, soldq) ∧
      out.status = .closed ∧ out.remaining_quantity = some 0 ∧
      out.pnl = some (exhaustTrade.partial_pnl + rec.pnl) ∧
      rec.pnl = (if exhaustTrade.side = "buy" then 120 - exhaustTrade.entry_price
                 else exhaustTrade.entry_price - 120) * exitQtyOf exhaustTrade (3 / 10) ∧
      rec.quantity_exited = exitQtyOf exhaustTrade (3 / 10) :=
  full_close_bookkeeping.1 exhaustTrade 120 (3 / 10) 2 (some 110)
    (by norm_num [exhaustTrade, pyOr, exitQtyOf])

def closedNotPinned : TradeRow :=
  { symbol := "Y/USDT", side := "buy", entry_price := 40, stop_loss := some 38,
    take_profit_1 := some 50, take_profit_2 := none, quantity := 1,
    original_quantity := some 1, remaining_quantity := some 1,
    partial_exits_done := 0, partial_pnl := 0, status := .open_,
    exit_price := none, pnl := none, leverage := some 1,
    strategy := "gauls_copy", entry_time := 0, notes := "" }

/-- C6 counterexample: the update-processor full-close path marks the trade
closed but leaves the remaining quantity at 1 and the realized P&L NULL. -/
theorem close_trade_leaves_remaining :
    (closeTrade closedNotPinned 50).status = .closed ∧
    (closeTrade closedNotPinned 50).remaining_quantity = some 1 ∧
    ((some 1 : Option ℚ) ≠ some 0) ∧
    (closeTrade closedNotPinned 50).pnl = none :=
  ⟨rfl, rfl, by norm_num, rfl⟩



/-- C1 (amended): on a poll that crosses TP1 in `OPEN_FULL` (respectively
TP2 in `OPEN_PARTIAL_1`), provided the stop-loss is not simultaneously
crossed (the stop check runs first) and the post-exit remainder stays above
the 0.0001 epsilon, the monitor exits 40% (respectively 30%) of the
original quantity and moves the stop to the entry price (respectively to
the tier-1 price). -/
theorem tp_tiers_partial_exit :
    (∀ (t : TradeRow) (price q tp1v : ℚ),
      t.side = "buy" → t.status = .open_ → t.partial_exits_done = 0 →
      t.take_profit_1 = some tp1v → 0 < tp1v → tp1v ≤ price →
      ¬ (truthyQ t.stop_loss = true ∧ price ≤ t.stop_loss.getD 0) →
      t.original_quantity = some q → t.remaining_quantity = some q → 0 < q →
      1 / 10000 < q - tp1ExitPercent * q →
      ∃ r, checkExitConditions t price = some r ∧
        r.kind = .tp1Hit ∧
        r.record = some { exit_price := price, quantity_exited := tp1ExitPercent * q,
                          pnl := (price - t.entry_price) * (tp1ExitPercent * q),
                          tp_level := 1, new_stop_loss := some t.entry_price } ∧
        r.soldQty = tp1ExitPercent * q ∧
        r.trade.stop_loss = some t.entry_price ∧
        r.trade.partial_exits_done = 1 ∧
        r.trade.remaining_quantity = some (q - tp1ExitPercent * q)) ∧
    (∀ (t : TradeRow) (price q p1 tp2v : ℚ),
      t.side = "buy" → t.status = .open_ → t.partial_exits_done = 1 →
      t.take_profit_2 = some tp2v → 0 < tp2v → tp2v ≤ price →
      t.take_profit_1 = some p1 →
      ¬ (truthyQ t.stop_loss = true ∧ price ≤ t.stop_loss.getD 0) →
      t.original_quantity = some q →
      t.remaining_quantity = some ((1 - tp1ExitPercent) * q) → 0 < q →
      1 / 10000 < (1 - tp1ExitPercent) * q - tp2ExitPercent * q →
      ∃ r, checkExitConditions t price = some r ∧
        r.kind = .tp2Hit ∧
        r.record = some { exit_price := price, quantity_exited := tp2ExitPercent * q,
                          pnl := (price - t.entry_price) * (tp2ExitPercent * q),
                          tp_level := 2, new_stop_loss := some p1 } ∧
        r.soldQty = tp2ExitPercent * q ∧
        r.trade.stop_loss = some p1 ∧
        r.trade.partial_exits_done = 2 ∧
        r.trade.remaining_quantity = some ((1 - tp1ExitPercent) * q - tp2ExitPercent * q)) := by
  constructor
  · intro t price q tp1v hb hopen hpe htp1 htp1pos hge hstop horig hrem hq hbig
    have hq0 : q ≠ 0 := ne_of_gt hq
    have hRem : pyOr t.remaining_quantity t.quantity = q := by
      rw [hrem]; simp [pyOr, hq0]
    have hOrig : pyOr t.original_quantity t.quantity = q := by
      rw [horig]; simp [pyOr, hq0]
    have hE : exitQtyOf t tp1ExitPercent = tp1ExitPercent * q := by
      rw [exitQtyOf, hOrig, hRem,
        min_eq_left (by rw [tp1ExitPercent]; nlinarith), mul_comm]
    have hno : ¬ (pyOr t.remaining_quantity t.quantity - exitQtyOf t tp1ExitPercent ≤ 1 / 10000) := by
      rw [hRem, hE]; linarith
    have hEP := executePartialExit_partial t price tp1ExitPercent 1 t.entry_price hno
    have htr : truthyQ t.take_profit_1 = true := by
      rw [htp1]; simp [truthyQ, ne_of_gt htp1pos]
    have hgd : price ≥ t.take_profit_1.getD 0 := by rw [htp1]; simpa using hge
    have h2f : ¬ (t.partial_exits_done = 1 ∧ truthyQ t.take_profit_2 = true ∧
        price ≥ t.take_profit_2.getD 0) := by
      rintro ⟨h1, -⟩
      rw [hpe] at h1
      exact absurd h1 (by decide)
    simp only [checkExitConditions]
    rw [if_pos hb, if_neg hstop, if_neg h2f, if_pos ⟨hpe, htr, hgd⟩, hEP]
    refine ⟨_, rfl, rfl, ?_, ?_, ?_, ?_, ?_⟩ <;>
      simp [hb, hE, hRem, hpe]
  · intro t price q p1 tp2v hb hopen hpe htp2 htp2pos hge htp1 hstop horig hrem hq hbig
    have hq0 : q ≠ 0 := ne_of_gt hq
    have hrq0 : (1 - tp1ExitPercent) * q ≠ 0 := by
      rw [tp1ExitPercent]; positivity
    have hRem : pyOr t.remaining_quantity t.quantity = (1 - tp1ExitPercent) * q := by
      rw [hrem]; simp [pyOr, hrq0]
    have hOrig : pyOr t.original_quantity t.quantity = q := by
      rw [horig]; simp [pyOr, hq0]
    have hE : exitQtyOf t tp2ExitPercent = tp2ExitPercent * q := by
      rw [exitQtyOf, hOrig, hRem,
        min_eq_left (by rw [tp2ExitPercent, tp1ExitPercent]; nlinarith), mul_comm]
    have hno : ¬ (pyOr t.remaining_quantity t.quantity - exitQtyOf t tp2ExitPercent ≤ 1 / 10000) := by
      rw [hRem, hE]; linarith
    have hEP := executePartialExit_partial t price tp2ExitPercent 2 p1 hno
    have htr : truthyQ t.take_profit_2 = true := by
      rw [htp2]; simp [truthyQ, ne_of_gt htp2pos]
    have hgd : price ≥ t.take_profit_2.getD 0 := by rw [htp2]; simpa using hge
    simp only [checkExitConditions]
    rw [if_pos hb, if_neg hstop, if_pos ⟨hpe, htr, hgd⟩, htp1, hEP]
    refine ⟨_, rfl, rfl, ?_, ?_, ?_, ?_, ?_⟩ <;>
      simp [hb, hE, hRem, hpe]



def tierOneTrade : TradeRow :=
  { symbol := "A/USDT", side := "buy", entry_price := 100, stop_loss := some 90,
    take_profit_1 := some 110, take_profit_2 := none, quantity := 10,
    original_quantity := some 10, remaining_quantity := some 10,
    partial_exits_done := 0, partial_pnl := 0, status := .open_,
    exit_price := none, pnl := none, leverage := some 1,
    strategy := "gauls_copy", entry_time := 0, notes := "" }

def tierTwoTrade : TradeRow :=
  { symbol := "A/USDT", side := "buy", entry_price := 100, stop_loss := some 100,
    take_profit_1 := some 110, take_profit_2 := some 120, quantity := 10,
    original_quantity := some 10, remaining_quantity := some 6,
    partial_exits_done := 1, partial_pnl := 44, status := .open_,
    exit_price := none, pnl := none, leverage := some 1,
    strategy := "gauls_copy", entry_time := 0, notes := "" }

/-- C1 witness: TP1 at price 111 on a 10-unit long, then TP2 at 121 after
one partial. -/
theorem tp_tiers_partial_exit_witness :
    (∃ r, checkExitConditions tierOneTrade 111 = some r ∧
      r.kind = .tp1Hit ∧
      r.record = some { exit_price := 111, quantity_exited := tp1ExitPercent * 10,
                        pnl := (111 - tierOneTrade.entry_price) * (tp1ExitPercent * 10),
                        tp_level := 1, new_stop_loss := some tierOneTrade.entry_price } ∧
      r.soldQty = tp1ExitPercent * 10 ∧
      r.trade.stop_loss = some tierOneTrade.entry_price ∧
      r.trade.partial_exits_done = 1 ∧
      r.trade.remaining_quantity = some (10 - tp1ExitPercent * 10)) ∧
    (∃ r, checkExitConditions tierTwoTrade 121 = some r ∧
      r.kind = .tp2Hit ∧
      r.record = some { exit_price := 121, quantity_exited := tp2ExitPercent * 10,
                        pnl := (121 - tierTwoTrade.entry_price) * (tp2ExitPercent * 10),
                        tp_level := 2, new_stop_loss := some 110 } ∧
      r.soldQty = tp2ExitPercent * 10 ∧
      r.trade.stop_loss = some 110 ∧
      r.trade.partial_exits_done = 2 ∧
      r.trade.remaining_quantity = some ((1 - tp1ExitPercent) * 10 - tp2ExitPercent * 10)) :=
  ⟨tp_tiers_partial_exit.1 tierOneTrade 111 10 110 rfl rfl rfl rfl (by norm_num) (by norm_num)
      (by norm_num [tierOneTrade, truthyQ]) rfl rfl (by norm_num)
      (by norm_num [tp1ExitPercent]),
   tp_tiers_partial_exit.2 tierTwoTrade 121 10 110 120 rfl rfl rfl rfl (by norm_num) (by norm_num)
      rfl (by norm_num [tierTwoTrade, truthyQ]) rfl (by norm_num [tierTwoTrade, tp1ExitPercent])
      (by norm_num) (by norm_num [tp1ExitPercent, tp2ExitPercent])⟩

/-- A long in `OPEN_FULL` whose stop sits above TP1. -/
def stopAboveTpTrade : TradeRow :=
  { symbol := "B/USDT", side := "buy", entry_price := 100, stop_loss := some 120,
    take_profit_1 := some 110, take_profit_2 := none, quantity := 1,
    original_quantity := some 1, remaining_quantity := some 1,
    partial_exits_done := 0, partial_pnl := 0, status := .open_,
    exit_price := none, pnl := none, leverage := some 1,
    strategy := "gauls_copy", entry_time := 0, notes := "" }

/-- C1 counterexample: an `OPEN_FULL` long whose stop (120) lies above TP1
(110); at price 115 the poll observes price at or above TP1 yet performs no
partial exit and fully closes the position, because the stop check runs
first. -/
theorem tp1_crossed_but_stop_first :
    stopAboveTpTrade.partial_exits_done = 0 ∧
    stopAboveTpTrade.take_profit_1 = some 110 ∧
    ((110 : ℚ) ≤ 115) ∧
    (checkExitConditions stopAboveTpTrade 115).map PollResult.record = some none ∧
    (checkExitConditions stopAboveTpTrade 115).map PollResult.kind = some .stopClose ∧
    (checkExitConditions stopAboveTpTrade 115).map (fun r => r.trade.status) = some .closed ∧
    (checkExitConditions stopAboveTpTrade 115).map (fun r => r.trade.stop_loss) = some (some 120) := by
  have hcond : truthyQ stopAboveTpTrade.stop_loss = true ∧
      (115 : ℚ) ≤ stopAboveTpTrade.stop_loss.getD 0 := by
    constructor
    · simp [stopAboveTpTrade, truthyQ]
    · norm_num [stopAboveTpTrade]
  refine ⟨rfl, rfl, by norm_num, ?_, ?_, ?_, ?_⟩ <;>
  · simp only [checkExitConditions]
    rw [if_pos (show stopAboveTpTrade.side = "buy" from rfl), if_pos hcond]
    rfl



/-- Recording the processed-signal marker makes the dedup check succeed. -/
theorem isProcessed_after_record (md5 : String → String) (st : TraderState) (sig : Signal) :
    isSignalAlreadyProcessed md5 (recordProcessedSignal md5 st sig) sig = true := by
  simp [isSignalAlreadyProcessed, recordProcessedSignal]

/-- A processed signal is dropped before any order or trade insertion. -/
theorem executeGaulsSignal_on_processed (md5 : String → String) (env : ExecEnv)
    (st : TraderState) (sig : Signal)
    (h : isSignalAlreadyProcessed md5 st sig = true) :
    executeGaulsSignal md5 env st sig = (none, st) := by
  rw [executeGaulsSignal, if_pos h]

/-- A successful pass through the order/bookkeeping tail records the marker. -/
theorem executeSignalCore_marks (md5 : String → String) (env : ExecEnv)
    (st : TraderState) (sig : Signal)
    (h5 : truthyQ sig.stop_loss = true)
    (h6 : ¬ |(execOrderChoice env sig).2 - sig.stop_loss.getD 0| = 0) :
    isSignalAlreadyProcessed md5 (executeSignalCore md5 env st sig).2 sig = true := by
  rw [executeSignalCore, if_neg (not_not_intro h5), if_neg h6]
  simp [recordGaulsTrade, isSignalAlreadyProcessed, recordProcessedSignal]

/-- C3: if executing a signal placed an order, then re-executing the very
same signal against the resulting state is a no-op: the dedup gate fires
first and neither an order nor a trade row is produced, the state is
returned unchanged. -/
theorem signal_processing_idempotent (md5 : String → String) (env1 env2 : ExecEnv)
    (st : TraderState) (sig : Signal) (o : Order)
    (h : (executeGaulsSignal md5 env1 st sig).1 = some o) :
    executeGaulsSignal md5 env2 (executeGaulsSignal md5 env1 st sig).2 sig =
      (none, (executeGaulsSignal md5 env1 st sig).2) := by
  by_cases h1 : isSignalAlreadyProcessed md5 st sig = true
  · rw [executeGaulsSignal, if_pos h1] at h
    simp at h
  · by_cases h2 : hasRecentTrade st env1.now sig.symbol = true
    · rw [executeGaulsSignal, if_neg h1, if_pos h2] at h
      simp at h
    · by_cases h3 : st.positions.contains (sig.symbol ++ "_" ++ sig.insightId) = true
      · rw [executeGaulsSignal, if_neg h1, if_neg h2, if_pos h3] at h
        simp at h
      · by_cases h4 : sig.entry_type ≠ "market" ∧ ¬ env1.planShouldExecute
        · rw [executeGaulsSignal, if_neg h1, if_neg h2, if_neg h3, if_pos h4] at h
          simp at h
        · have hexec : executeGaulsSignal md5 env1 st sig = executeSignalCore md5 env1 st sig := by
            rw [executeGaulsSignal, if_neg h1, if_neg h2, if_neg h3, if_neg h4]
          rw [hexec] at h ⊢
          by_cases h5 : truthyQ sig.stop_loss = true
          · by_cases h6 : |(execOrderChoice env1 sig).2 - sig.stop_loss.getD 0| = 0
            · rw [executeSignalCore, if_neg (not_not_intro h5), if_pos h6] at h
              simp at h
            · exact executeGaulsSignal_on_processed md5 env2 _ sig
                (executeSignalCore_marks md5 env1 st sig h5 h6)
          · rw [executeSignalCore, if_pos h5] at h
            simp at h



def wSignal : Signal :=
  { initSignal "BTC Buying Setup raw text" "BTC" with
    stop_loss := some 99, take_profit := some 110, insightId := "7", timestamp := "t0" }

def wEnv : ExecEnv :=
  { price := 100, available := 1000000, planShouldExecute := true, planModifier := 1,
    llmAdjustedEntry := 100, now := 1000 }

def wEnv2 : ExecEnv :=
  { price := 104, available := 900000, planShouldExecute := true, planModifier := 1,
    llmAdjustedEntry := 104, now := 2000 }

def wState : TraderState := { processed := [], trades := [], positions := [], orders := [] }

/-- C3 witness: a concrete market signal executed against an empty state,
then re-executed. -/
theorem signal_processing_idempotent_witness :
    (executeGaulsSignal (fun s => s) wEnv wState wSignal).1 =
      some { symbol := "BTC/USDT", orderType := "market", side := "buy",
             amount := 25, price := 100 } ∧
    executeGaulsSignal (fun s => s) wEnv2 (executeGaulsSignal (fun s => s) wEnv wState wSignal).2
        wSignal =
      (none, (executeGaulsSignal (fun s => s) wEnv wState wSignal).2) := by
  have hoc : execOrderChoice wEnv wSignal = ("market", 100) := by
    rw [execOrderChoice, if_pos (show wSignal.entry_type = "market" from rfl)]
    rfl
  have hrun : executeGaulsSignal (fun s : String => s) wEnv wState wSignal =
      executeSignalCore (fun s => s) wEnv wState wSignal := by
    rw [executeGaulsSignal,
      if_neg (by simp [isSignalAlreadyProcessed, wState]),
      if_neg (by simp [hasRecentTrade, wState]),
      if_neg (by simp [wState]),
      if_neg (by simp [wSignal, initSignal])]
  have h5 : truthyQ wSignal.stop_loss = true := by norm_num [wSignal, initSignal, truthyQ]
  have h6 : ¬ |(execOrderChoice wEnv wSignal).2 - wSignal.stop_loss.getD 0| = 0 := by
    rw [hoc]
    norm_num [wSignal, initSignal]
  have h1 : (executeGaulsSignal (fun s : String => s) wEnv wState wSignal).1 =
      some { symbol := "BTC/USDT", orderType := "market", side := "buy",
             amount := 25, price := 100 } := by
    rw [hrun, executeSignalCore, if_neg (not_not_intro h5), if_neg h6]
    simp only [hoc]
    have hps : positionSizeCore wEnv.available 100 |100 - wSignal.stop_loss.getD 0| =
        positionSizeCore 1000000 100 1 := by
      norm_num [wSignal, initSignal, wEnv]
    rw [hps, positionSizeCore_unscaled 1000000 100 1
      (by norm_num [maxLossPerTradeEur, gaulsLeverage])]
    simp only [execPlan, if_pos (show wSignal.entry_type = "market" from rfl)]
    norm_num [maxLossPerTradeEur, wSignal, initSignal]
    rfl
  exact ⟨h1, signal_processing_idempotent (fun s => s) wEnv wEnv2 wState wSignal _ h1⟩


/-- The action produced for a generic both/all risk-free instruction. -/
def riskFreeGenericAction : UAction :=
  { typeStr := "risk_free_generic", partialPercent := none,
    moveSlTo := some "breakeven", rValue := none }

/-- C5: a message carrying a generic both/all risk-free instruction (and no
R-action or percentage-booking phrase) yields the stop-only generic
action; executing it on any matching open trade sells nothing, records no
partial exit, and migrates the stop to the breakeven price (at or beyond
entry, side-aware). -/
theorem generic_risk_free_stop_only (msg : String)
    (hrf : (reSearch riskFreeRe msg).isSome = true)
    (hba : (reSearch bothAllRe msg).isSome = true)
    (hra : reSearch rActionRe msg = none)
    (hbp : reSearch bookPartialRe msg = none) :
    determineActionEnhanced msg (extractGenericInstructions msg) = some riskFreeGenericAction ∧
    (∀ (t : TradeRow) (price : ℚ),
      executeAction price t riskFreeGenericAction =
        { trade := moveStopToBreakeven t, record := none, soldQty := 0 }) ∧
    (∀ t : TradeRow,
      (moveStopToBreakeven t).stop_loss = some (breakevenPrice t) ∧
      (0 < t.entry_price →
        (t.side = "buy" → t.entry_price ≤ breakevenPrice t) ∧
        (t.side ≠ "buy" → breakevenPrice t ≤ t.entry_price))) := by
  refine ⟨?_, ?_, ?_⟩
  · simp [determineActionEnhanced, extractGenericInstructions, hrf, hba, riskFreeGenericAction]
  · intro t price
    simp [executeAction, riskFreeGenericAction]
  · intro t
    refine ⟨rfl, fun hpos => ⟨fun hb => ?_, fun hb => ?_⟩⟩
    · rw [breakevenPrice, if_pos hb]
      nlinarith
    · rw [breakevenPrice, if_neg hb]
      nlinarith

def riskFreeMsg : String := "both trades risk-free, letting targets cook"

def genericTrade : TradeRow :=
  { symbol := "SOL/USDT", side := "buy", entry_price := 150, stop_loss := some 140,
    take_profit_1 := some 180, take_profit_2 := none, quantity := 4,
    original_quantity := some 4, remaining_quantity := some 4,
    partial_exits_done := 0, partial_pnl := 0, status := .open_,
    exit_price := none, pnl := none, leverage := some 10,
    strategy := "gauls_copy", entry_time := 0, notes := "" }

/-- C5 witness at the Scenario-D text and a concrete open long. -/
theorem generic_risk_free_stop_only_witness :
    determineActionEnhanced riskFreeMsg (extractGenericInstructions riskFreeMsg) =
      some riskFreeGenericAction ∧
    executeAction 160 genericTrade riskFreeGenericAction =
      { trade := moveStopToBreakeven genericTrade, record := none, soldQty := 0 } ∧
    (moveStopToBreakeven genericTrade).stop_loss = some (breakevenPrice genericTrade) := by
  have h := generic_risk_free_stop_only riskFreeMsg (by decide) (by decide) (by decide) (by decide)
  exact ⟨h.1, h.2.1 genericTrade 160, (h.2.2 genericTrade).1⟩



theorem applyRR_stop_loss (text : String) (s : Signal) :
    (applyRR text s).stop_loss = s.stop_loss := by
  cases h : reSearch rrRe text <;> simp [applyRR, h]

theorem applyRR_take_profit (text : String) (s : Signal) :
    (applyRR text s).take_profit = s.take_profit := by
  cases h : reSearch rrRe text <;> simp [applyRR, h]

theorem applyTP_stop_loss (text : String) (s : Signal) :
    (applyTP text s).stop_loss = s.stop_loss := by
  cases h : reSearch tpRe text with
  | none => simp [applyTP, h]
  | some c =>
    simp only [applyTP, h]
    split_ifs <;> try rfl
    cases h2 : rangeGroups text <;> simp [h2]

theorem applySL_sets (text : String) (s : Signal) (v : ℚ) (h : slNum text = some v) :
    (applySL text s).stop_loss = some v := by
  rw [slNum] at h
  rcases Option.bind_eq_some.mp h with ⟨c, hc, hmap⟩
  rcases Option.map_eq_some'.mp hmap with ⟨g, hg, hv⟩
  simp [applySL, hc, hg, hv]

theorem applyTP_tp_zero (text : String) (s : Signal) (h : tpNum text = some 0) :
    (applyTP text s).take_profit = some 0 := by
  rw [tpNum] at h
  rcases Option.bind_eq_some.mp h with ⟨c, hc, hmap⟩
  rcases Option.map_eq_some'.mp hmap with ⟨g, hg, hv⟩
  simp only [applyTP, hc, hg, Option.getD_some, hv]
  split_ifs <;> try simp
  cases h2 : rangeGroups text <;> simp [h2]

/-- C9: when the extracted stop-loss or take-profit number is zero, the
final truthiness validation rejects the message and `parse_signal`
returns `None`, label presence notwithstanding. -/
theorem zero_sl_or_tp_rejected (text : String)
    (h : slNum text = some 0 ∨ tpNum text = some 0) :
    parseSignal text = none := by
  rw [parseSignal]
  by_cases hb : (reSearch buyingSetupRe text).isNone
  · rw [if_pos hb]
  · rw [if_neg hb]
    cases hsym : symbolSym text with
    | none => rfl
    | some sym =>
      dsimp only
      rcases h with hsl | htp
      · have hstop : (applyRR text (applyTP text (applySL text (applyHint text
            (applyEntry text (initSignal text sym)))))).stop_loss = some 0 := by
          rw [applyRR_stop_loss, applyTP_stop_loss, applySL_sets text _ 0 hsl]
        rw [if_neg]
        intro hcon
        rw [hstop] at hcon
        simp [truthyQ] at hcon
      · have htp0 : (applyRR text (applyTP text (applySL text (applyHint text
            (applyEntry text (initSignal text sym)))))).take_profit = some 0 := by
          rw [applyRR_take_profit, applyTP_tp_zero text _ htp]
        rw [if_neg]
        intro hcon
        rw [htp0] at hcon
        simp [truthyQ] at hcon

/-- Evaluation helper for `parseRat` on a concrete literal. -/
theorem parseRat_intFrac (s : String) (ip rest : List Char) (a b : ℕ)
    (hspan : s.data.span (fun c => c ≠ '.') = (ip, rest))
    (ha : digitsVal ip = a) (hb : digitsVal (rest.drop 1) = b) :
    parseRat s = (a : ℚ) + (b : ℚ) / 10 ^ (rest.drop 1).length := by
  simp only [parseRat, hspan, ha, hb]

def zeroSlText : String := "$BTC Buying Setup: Entry: CMP TP: 114786 SL: 0"

/-- C9 witness: a complete setup message whose stop-loss field is `0`. -/
theorem zero_sl_or_tp_rejected_witness :
    slNum zeroSlText = some 0 ∧
    (reSearch buyingSetupRe zeroSlText).isSome = true ∧
    parseSignal zeroSlText = none := by
  have h0 : parseRat "0" = 0 := by
    rw [parseRat_intFrac "0" ['0'] [] 0 0 (by decide) (by decide) (by decide)]
    norm_num
  have h1 : slNum zeroSlText = some 0 := by
    have hs : reSearch slRe zeroSlText = some [(1, "0")] := by decide
    rw [slNum, hs]
    simp [getCap, h0]
  exact ⟨h1, by decide, zero_sl_or_tp_rejected zeroSlText (Or.inl h1)⟩



theorem applyEntry_cmp_market (text : String) (s : Signal) (g : String)
    (hentry : entryGroups text = some (some g, none)) (hg : pyUpper g = "CMP") :
    applyEntry text s = { s with entry_type := "market" } := by
  rw [entryGroups] at hentry
  rcases Option.map_eq_some'.mp hentry with ⟨c, hc, hpair⟩
  have h1 : getCap c 1 = some g := by
    have := congrArg Prod.fst hpair
    simpa using this
  have h2 : getCap c 2 = none := by
    have := congrArg Prod.snd hpair
    simpa using this
  simp [applyEntry, hc, h1, h2, hg]

theorem applyHint_none (text : String) (s : Signal)
    (h : reSearch hintRe text = none) : applyHint text s = s := by
  simp [applyHint, h]

theorem applyHint_fields (text : String) (s : Signal) :
    (applyHint text s).entry_price = s.entry_price ∧
    (applyHint text s).entry_type = s.entry_type ∧
    (applyHint text s).stop_loss = s.stop_loss ∧
    (applyHint text s).take_profit = s.take_profit ∧
    (applyHint text s).risk_reward = s.risk_reward ∧
    (applyHint text s).symbol = s.symbol := by
  cases h : reSearch hintRe text <;> simp [applyHint, h]

theorem applySL_record (text : String) (s : Signal) (v : ℚ) (h : slNum text = some v) :
    applySL text s = { s with stop_loss := some v } := by
  rw [slNum] at h
  rcases Option.bind_eq_some.mp h with ⟨c, hc, hmap⟩
  rcases Option.map_eq_some'.mp hmap with ⟨g, hg, hv⟩
  simp [applySL, hc, hg, hv]

theorem applyTP_mult_bare (text : String) (s : Signal) (gv : String)
    (htp : tpGroups text = some (some gv, some "x"))
    (hep : s.entry_price = none)
    (hrange : reSearch rangeRe text = none) :
    applyTP text s =
      { s with take_profit := some (parseRat gv), risk_reward := some (parseRat gv) } := by
  rw [tpGroups] at htp
  rcases Option.map_eq_some'.mp htp with ⟨c, hc, hpair⟩
  have h1 : getCap c 1 = some gv := by
    have := congrArg Prod.fst hpair
    simpa using this
  have h2 : getCap c 2 = some "x" := by
    have := congrArg Prod.snd hpair
    simpa using this
  simp [applyTP, hc, h1, h2, hep, truthyQ, rangeGroups, hrange]

theorem applyTP_direct (text : String) (s : Signal) (gv w : String)
    (htp : tpGroups text = some (some gv, some w)) (hw : w ≠ "x") :
    applyTP text s = { s with take_profit := some (parseRat gv) } := by
  rw [tpGroups] at htp
  rcases Option.map_eq_some'.mp htp with ⟨c, hc, hpair⟩
  have h1 : getCap c 1 = some gv := by
    have := congrArg Prod.fst hpair
    simpa using this
  have h2 : getCap c 2 = some w := by
    have := congrArg Prod.snd hpair
    simpa using this
  simp [applyTP, hc, h1, h2, hw]

theorem applyRR_none (text : String) (s : Signal)
    (h : reSearch rrRe text = none) : applyRR text s = s := by
  simp [applyRR, h]

theorem symbol_ne_empty (sym text : String) :
    (initSignal text sym).symbol ≠ "" := by
  intro hcon
  have hlen := congrArg String.length hcon
  simp [initSignal, String.length_append] at hlen
  exact absurd hlen.2 (by decide)



/-- C10 (amended): a take-profit with `x` multiplier suffix, market-sentinel
entry and no entry range stores the bare multiplier as both take-profit and
risk-reward, and the Signal is accepted whenever the stop-loss and the
multiplier are both non-zero (and no `RR:` field overrides the
risk-reward). -/
theorem tp_multiplier_market_signal (text : String) (m sl : ℚ) (g gv gs : String)
    (hbuy : (reSearch buyingSetupRe text).isSome = true)
    (hsym : symbolSym text = some gs)
    (hentry : entryGroups text = some (some g, none))
    (hg : pyUpper g = "CMP")
    (htp : tpGroups text = some (some gv, some "x"))
    (hm : parseRat gv = m) (hm0 : m ≠ 0)
    (hrange : reSearch rangeRe text = none)
    (hsl : slNum text = some sl) (hsl0 : sl ≠ 0)
    (hrr : reSearch rrRe text = none) :
    ∃ sig, parseSignal text = some sig ∧
      sig.take_profit = some m ∧ sig.risk_reward = some m ∧
      sig.entry_type = "market" ∧ sig.entry_price = none ∧
      sig.stop_loss = some sl := by
  rcases Option.isSome_iff_exists.mp hbuy with ⟨bs, hbs⟩
  rw [parseSignal, hbs]
  rw [if_neg (by simp)]
  rw [hsym]
  dsimp only
  rw [applyEntry_cmp_market text (initSignal text gs) g hentry hg]
  rw [applySL_record text _ sl hsl]
  have hep : ({ applyHint text { initSignal text gs with entry_type := "market" } with
      stop_loss := some sl } : Signal).entry_price = none := by
    have h1 := (applyHint_fields text { initSignal text gs with entry_type := "market" }).1
    simp only [Signal.entry_price] at h1 ⊢
    rw [h1]
    simp [initSignal]
  rw [applyTP_mult_bare text _ gv htp hep hrange, hm]
  rw [applyRR_none text _ hrr]
  have hfields := applyHint_fields text { initSignal text gs with entry_type := "market" }
  rw [if_pos]
  · refine ⟨_, rfl, rfl, rfl, ?_, ?_, rfl⟩
    · show (applyHint text { initSignal text gs with entry_type := "market" }).entry_type = "market"
      rw [hfields.2.1]
    · show (applyHint text { initSignal text gs with entry_type := "market" }).entry_price = none
      rw [hfields.1]
      simp [initSignal]
  · refine ⟨?_, ?_, ?_⟩
    · show (applyHint text { initSignal text gs with entry_type := "market" }).symbol ≠ ""
      rw [hfields.2.2.2.2.2]
      exact symbol_ne_empty gs text
    · simp [truthyQ, hsl0]
    · simp [truthyQ, hm0]



def multText : String := "AB Buying Setup: Entry: CMP TP: 2x SL: 5"

/-- C10 witness: a `2x` target with market entry and stop-loss 5. -/
theorem tp_multiplier_market_signal_witness :
    ∃ sig, parseSignal multText = some sig ∧
      sig.take_profit = some 2 ∧ sig.risk_reward = some 2 ∧
      sig.entry_type = "market" ∧ sig.entry_price = none ∧
      sig.stop_loss = some 5 := by
  have hm : parseRat "2" = 2 := by
    rw [parseRat_intFrac "2" ['2'] [] 2 0 (by decide) (by decide) (by decide)]
    norm_num
  have hsl : slNum multText = some 5 := by
    have hs : reSearch slRe multText = some [(1, "5")] := by decide
    have h5 : parseRat "5" = 5 := by
      rw [parseRat_intFrac "5" ['5'] [] 5 0 (by decide) (by decide) (by decide)]
      norm_num
    rw [slNum, hs]
    simp [getCap, h5]
  exact tp_multiplier_market_signal multText 2 5 "CMP" "2" "AB" (by decide) (by decide)
    (by decide) (by decide) (by decide) hm (by norm_num) (by decide) hsl (by norm_num) (by decide)

def zeroMultText : String := "AB Buying Setup: Entry: CMP TP: 0x SL: 5"

/-- C10 counterexample: a `0x` multiplier target is stored as take-profit 0
and rejected by the truthiness validation even though a non-zero stop-loss
is present, so no Signal is produced. -/
theorem tp_multiplier_zero_counterexample :
    tpGroups zeroMultText = some (some "0", some "x") ∧
    slNum zeroMultText = some 5 ∧ ((5 : ℚ) ≠ 0) ∧
    parseSignal zeroMultText = none := by
  have h0 : parseRat "0" = 0 := by
    rw [parseRat_intFrac "0" ['0'] [] 0 0 (by decide) (by decide) (by decide)]
    norm_num
  have hsl : slNum zeroMultText = some 5 := by
    have hs : reSearch slRe zeroMultText = some [(1, "5")] := by decide
    have h5 : parseRat "5" = 5 := by
      rw [parseRat_intFrac "5" ['5'] [] 5 0 (by decide) (by decide) (by decide)]
      norm_num
    rw [slNum, hs]
    simp [getCap, h5]
  have htp0 : tpNum zeroMultText = some 0 := by
    have hs : reSearch tpRe zeroMultText = some [(2, "x"), (1, "0")] := by decide
    rw [tpNum, hs]
    show (getCap [(2, "x"), (1, "0")] 1).map parseRat = some 0
    rw [show getCap [(2, "x"), (1, "0")] 1 = some "0" from by decide]
    rw [Option.map_some', h0]
  refine ⟨by decide, hsl, by norm_num, ?_⟩
  rw [parseSignal]
  rw [if_neg (by decide)]
  have hsym : symbolSym zeroMultText = some "AB" := by decide
  rw [hsym]
  dsimp only
  have htpz : (applyRR zeroMultText (applyTP zeroMultText (applySL zeroMultText
      (applyHint zeroMultText (applyEntry zeroMultText
        (initSignal zeroMultText "AB")))))).take_profit = some 0 := by
    rw [applyRR_take_profit, applyTP_tp_zero _ _ htp0]
  rw [if_neg]
  intro hcon
  rw [htpz] at hcon
  simp [truthyQ] at hcon

def seiText : String :=
  "$SEI Spot/Swing Buying Setup: Entry: CMP till 2780 TP: 0.43 SL: 0.26"

/-- The Signal the parser actually produces for `seiText`. -/
def seiParsed : Signal :=
  { symbol := "SEI/USDT", side := "buy", entry_price := none, entry_type := "market",
    entry_hint := none, stop_loss := some (13 / 50), take_profit := some (43 / 100),
    risk_reward := none, conviction := "high", raw_text := seiText,
    source := "gauls_copy", original_target := none, insightId := "", timestamp := "" }

theorem seiParse_eq : parseSignal seiText = some seiParsed := by
  have hsl : slNum seiText = some (13 / 50) := by
    have hs : reSearch slRe seiText = some [(1, "0.26")] := by decide
    have hv : parseRat "0.26" = 13 / 50 := by
      rw [parseRat_intFrac "0.26" ['0'] ['.', '2', '6'] 0 26 (by decide) (by decide) (by decide)]
      norm_num
    rw [slNum, hs]
    simp [getCap, hv]
  have hv43 : parseRat "0.43" = 43 / 100 := by
    rw [parseRat_intFrac "0.43" ['0'] ['.', '4', '3'] 0 43 (by decide) (by decide) (by decide)]
    norm_num
  rw [parseSignal]
  rw [if_neg (by decide)]
  have hsym : symbolSym seiText = some "SEI" := by decide
  rw [hsym]
  dsimp only
  rw [applyEntry_cmp_market seiText (initSignal seiText "SEI") "CMP" (by decide) (by decide)]
  rw [applyHint_none seiText _ (by decide)]
  rw [applySL_record seiText _ (13 / 50) hsl]
  rw [applyTP_direct seiText _ "0.43" "" (by decide) (by decide), hv43]
  rw [applyRR_none seiText _ (by decide)]
  rw [if_pos]
  · simp only [Option.some.injEq]
    simp [initSignal, seiParsed, Signal.mk.injEq]
  · refine ⟨?_, by norm_num [truthyQ], by norm_num [truthyQ]⟩
    exact symbol_ne_empty "SEI" seiText

/-- C8 (amended): the "till 2780" wording is not the "down to" form the
parser recognises, so the Scenario-B text parses as a market-entry Signal
with no entry price and no conservative buffer; symbol, stop-loss and
take-profit are extracted as expected. -/
theorem sei_till_parses_market :
    parseSignal seiText = some seiParsed ∧
    seiParsed.entry_type = "market" ∧ seiParsed.entry_price = none ∧
    seiParsed.symbol = "SEI/USDT" ∧ seiParsed.take_profit = some (43 / 100) ∧
    seiParsed.stop_loss = some (13 / 50) :=
  ⟨seiParse_eq, rfl, rfl, rfl, rfl, rfl⟩

/-- C8 counterexample: the parse of the Scenario-B text is a market order
with no entry price, not a limit order at 2780 plus the 0.63% buffer. -/
theorem sei_till_counterexample :
    (parseSignal seiText).map Signal.entry_type = some "market" ∧
    ("market" ≠ "limit") ∧
    (parseSignal seiText).map Signal.entry_price = some none := by
  rw [seiParse_eq]
  exact ⟨rfl, by decide, rfl⟩

end GaulsArena
